import Mathlib

/-!
Shallow embedding of the RSSI controller (`rogue/protocols/rssi/Controller.cpp`)
and the slice of the stream-buffer layer it relies on.

Machine integers are modelled as `Nat` with explicit reduction:
8-bit sequence arithmetic is taken `% 256` exactly where the C++ performs
`uint8_t` arithmetic, and 32-bit counters wrap through `% 4294967296`
(`incr32` / `decr32`).  Wall-clock time (`gettimeofday`) is an explicit
`now : Nat` parameter measured in microseconds.  Calls to
`tran_->sendFrame` are recorded in a ghost trace `sent`.
-/

namespace Rssi

/-- Modelled from the spec: the controller constants (`TryPeriod`,
`TimeoutUnit`, `LocMaxBuffers`, `BusyThold`, `Version` and the request
defaults) are declared in `Controller.h`, which is not under `src/`; the
values are chosen consistent with the spec's handshake scenario
(`retranTout=10, cumAckTout=5, nullTout=3`) and the 8-bit window. -/
def TimeoutUnit : Nat := 3

/-- Modelled from the spec: see `TimeoutUnit`. -/
def TryPeriod : Nat := 100

/-- Modelled from the spec: see `TimeoutUnit`. -/
def LocMaxBuffers : Nat := 32

/-- Modelled from the spec: see `TimeoutUnit`. -/
def BusyThold : Nat := 64

/-- Modelled from the spec: see `TimeoutUnit`. -/
def Version : Nat := 1

/-- Modelled from the spec: see `TimeoutUnit`. -/
def ReqRetranTout : Nat := 10

/-- Modelled from the spec: see `TimeoutUnit`. -/
def ReqCumAckTout : Nat := 5

/-- Modelled from the spec: see `TimeoutUnit`. -/
def ReqNullTout : Nat := 3

/-- Modelled from the spec: see `TimeoutUnit`. -/
def ReqMaxRetran : Nat := 15

/-- Modelled from the spec: see `TimeoutUnit`. -/
def ReqMaxCumAck : Nat := 2

/-- Modelled from the spec: `rpr::Header::HeaderSize` lives in `Header.h`
(not under `src/`); the spec's wire table gives a 12-byte fixed header
(flags, header length, sequence, acknowledge, 16-bit payload length,
16-bit reserved, 32-bit checksum). -/
def HeaderSize : Nat := 12

/-- 32-bit increment (`uint32_t` `++`). -/
def incr32 (x : Nat) : Nat := (x + 1) % 4294967296

/-- 32-bit decrement (`uint32_t` `--`). -/
def decr32 (x : Nat) : Nat := (x + 4294967295) % 4294967296

/-- `Controller::convTime`: `rssiTime * 10^TimeoutUnit` microseconds,
narrowed to `uint32_t`. -/
def convTime (rssiTime : Nat) : Nat := (rssiTime * 10 ^ TimeoutUnit) % 4294967296

/-- `Controller::timePassed`: `now > lastTime + convTime(rssiTime)`. -/
def timePassed (lastTime : Nat) (rssiTime : Nat) (now : Nat) : Bool :=
  lastTime + convTime rssiTime < now

/-- The controller state enumeration. -/
inductive St where
  | StClosed
  | StWaitSyn
  | StSendSeqAck
  | StOpen
  | StError
deriving DecidableEq, Repr

/-- An outbound RSSI header as the controller manipulates it.  The wire
fields are the flag bits, sequence/acknowledge and the syn-extension
parameters; `time` and `count` are the transient send-time and retransmit
counter of the header codec (spec 4.1). -/
structure TxHeader where
  syn : Bool
  ack : Bool
  rst : Bool
  nul : Bool
  bsy : Bool
  chk : Bool
  sequence : Nat
  acknowledge : Nat
  time : Nat
  count : Nat
  version : Nat
  maxOutstandingSegments : Nat
  maxSegmentSize : Nat
  retransmissionTimeout : Nat
  cumulativeAckTimeout : Nat
  nullTimeout : Nat
  maxRetransmissions : Nat
  maxCumulativeAck : Nat
  timeoutUnit : Nat
  connectionId : Nat
deriving DecidableEq, Repr

/-- Modelled from the spec: `Header::txInit(syn, ack)` (codec not under
`src/`) clears the header region, sets the header length for the chosen
shape and seeds the two flags (spec 4.1). -/
def txInit (syn : Bool) (ack : Bool) : TxHeader :=
  { syn := syn, ack := ack, rst := false, nul := false, bsy := false, chk := false
    sequence := 0, acknowledge := 0, time := 0, count := 0
    version := 0, maxOutstandingSegments := 0, maxSegmentSize := 0
    retransmissionTimeout := 0, cumulativeAckTimeout := 0, nullTimeout := 0
    maxRetransmissions := 0, maxCumulativeAck := 0, timeoutUnit := 0, connectionId := 0 }

/-- A frame received at the transport interface, as the controller sees it
through the header codec.  Modelled from the spec for the codec part
(`Header.cpp` is not under `src/`): the decoded flag bits, 8-bit
sequence/acknowledge, the syn-extension parameters, together with the
frame's buffer count and total payload, and the result of `verify()`. -/
structure RxFrame where
  syn : Bool
  ack : Bool
  rst : Bool
  nul : Bool
  bsy : Bool
  sequence : Nat
  acknowledge : Nat
  bufCount : Nat
  payload : Nat
  verifyOk : Bool
  maxOutstandingSegments : Nat
  maxSegmentSize : Nat
  retransmissionTimeout : Nat
  cumulativeAckTimeout : Nat
  nullTimeout : Nat
  maxRetransmissions : Nat
  maxCumulativeAck : Nat
deriving DecidableEq, Repr

/-- A stream buffer, after `Buffer.cpp`: raw size, head/tail reservations
and the payload cursor. -/
structure Buffer where
  rawSize : Nat
  headRoom : Nat
  tailRoom : Nat
  payload : Nat
deriving DecidableEq, Repr

/-- `Buffer::getAvailable` from `src`: `rawSize - payload` (32-bit), then
minus the tail reservation, clamped at zero. -/
def Buffer.getAvailable (b : Buffer) : Nat :=
  let ret := (b.rawSize + 4294967296 - b.payload % 4294967296) % 4294967296
  if ret < b.tailRoom then 0 else ret - b.tailRoom

/-- A stream frame: its buffers, plus the decoded content of the RSSI
header region at the head of the first buffer (`none` when the controller
has not written a header there).  Modelled from the spec for the container
part (`Frame.cpp` is not under `src/`). -/
structure Frame where
  buffers : List Buffer
  hdr : Option TxHeader
deriving DecidableEq, Repr

/-- The 256-slot retransmit list, keyed by `uint8_t` sequence number. -/
def TxList := Fin 256 → Option TxHeader

/-- Write a slot of the retransmit list (array store at a `uint8_t` index). -/
def txSet (t : TxList) (n : Nat) (v : Option TxHeader) : TxList :=
  fun i => if i.val = n % 256 then v else t i

/-- Read a slot of the retransmit list (array read at a `uint8_t` index). -/
def txGet (t : TxList) (n : Nat) : Option TxHeader :=
  t ⟨n % 256, Nat.mod_lt _ (by omega)⟩

/-- The controller state: the member variables of `rpr::Controller`,
with the two condition queues as lists (front = head of list) and the
ghost trace `sent` of frames handed to `tran_->sendFrame`. -/
structure Controller where
  dropCount : Nat
  nextSeqRx : Nat
  lastAckRx : Nat
  tranBusy : Bool
  lastSeqRx : Nat
  state : St
  stTime : Nat
  prevAckRx : Nat
  downCount : Nat
  retranCount : Nat
  txList : TxList
  txListCount : Nat
  lastAckTx : Nat
  locSequence : Nat
  txTime : Nat
  locConnId : Nat
  remMaxBuffers : Nat
  remMaxSegment : Nat
  retranTout : Nat
  cumAckTout : Nat
  nullTout : Nat
  maxRetran : Nat
  maxCumAck : Nat
  remConnId : Nat
  segmentSize : Nat
  stQueue : List RxFrame
  appQueue : List RxFrame
  sent : List TxHeader

/-- The constructor `Controller::Controller(segSize, tran, app)`. -/
def Controller.init (segSize : Nat) : Controller :=
  { dropCount := 0, nextSeqRx := 0, lastAckRx := 0, tranBusy := false
    lastSeqRx := 0, state := .StClosed, stTime := 0, prevAckRx := 0
    downCount := 0, retranCount := 0
    txList := fun _ => none, txListCount := 0, lastAckTx := 0
    locSequence := 100, txTime := 0
    locConnId := 0x12345678, remMaxBuffers := 0, remMaxSegment := 100
    retranTout := ReqRetranTout, cumAckTout := ReqCumAckTout
    nullTout := ReqNullTout, maxRetran := ReqMaxRetran, maxCumAck := ReqMaxCumAck
    remConnId := 0, segmentSize := segSize
    stQueue := [], appQueue := [], sent := [] }

/-- `Controller::getBusy`: `appQueue_.size() > BusyThold`. -/
def Controller.getBusy (c : Controller) : Bool := c.appQueue.length > BusyThold

/-- `Controller::transportTx(head, seqUpdate)`: stamp the current
`locSequence_` into the header; when `seqUpdate`, store the header in the
retransmit list and advance `txListCount_` and `locSequence_`; set the
acknowledge and busy fields, run `Header::update()` (checksum, send time,
retransmit counter), record `lastAckTx_` and `txTime_`, and send.  Because
the stored list entry aliases the header object, the slot holds the fully
updated header.  Returns the new controller state and the header as sent. -/
def Controller.transportTx (c : Controller) (head : TxHeader) (seqUpdate : Bool)
    (now : Nat) : Controller × TxHeader :=
  let h := { head with sequence := c.locSequence }
  let h := { h with acknowledge := c.lastSeqRx, bsy := c.getBusy,
                    time := now, count := h.count + 1 }
  let c :=
    if seqUpdate then
      { c with txList := txSet c.txList c.locSequence (some h)
               txListCount := incr32 c.txListCount
               locSequence := (c.locSequence + 1) % 256 }
    else c
  ({ c with lastAckTx := c.lastSeqRx, txTime := now, sent := c.sent ++ [h] }, h)

/-- `transportRx`, step 1: `if (frame->getCount() == 0 || !head->verify())
dropCount_++;` — note the C++ has no early return here. -/
def Controller.rxDropCheck (c : Controller) (r : RxFrame) : Controller :=
  if r.bufCount = 0 ∨ ¬ r.verifyOk then { c with dropCount := incr32 c.dropCount } else c

/-- `transportRx`, step 2: `if (head->getAck()) lastAckRx_ = head->getAcknowledge();`. -/
def Controller.rxAckSample (c : Controller) (r : RxFrame) : Controller :=
  if r.ack then { c with lastAckRx := r.acknowledge } else c

/-- `transportRx`, step 3: `tranBusy_ = head->getBusy();`. -/
def Controller.rxBusySample (c : Controller) (r : RxFrame) : Controller :=
  { c with tranBusy := r.bsy }

/-- `transportRx`, step 4: SYN and RST frames go to the state machine when
the state is Open or WaitSyn. -/
def Controller.rxStRoute (c : Controller) (r : RxFrame) : Controller :=
  if (c.state = .StOpen ∨ c.state = .StWaitSyn) ∧ (r.syn ∨ r.rst) then
    { c with stQueue := c.stQueue ++ [r] }
  else c

/-- `transportRx`, step 5: SYN, or in-sequence NUL/data while Open, goes to
the application queue; `nextSeqRx_` becomes `sequence+1` on SYN and is
incremented otherwise. -/
def Controller.rxAppDeliver (c : Controller) (r : RxFrame) : Controller :=
  if r.syn ∨ (c.state = .StOpen ∧ (r.nul ∨ r.payload > HeaderSize) ∧ r.sequence = c.nextSeqRx) then
    { c with nextSeqRx := if r.syn then (r.sequence + 1) % 256 else (c.nextSeqRx + 1) % 256
             appQueue := c.appQueue ++ [r] }
  else c

/-- `Controller::transportRx(frame)`: the five statement blocks of the C++
body in order (drop counting, ack sample, busy sample, state-queue routing,
application delivery). -/
def Controller.transportRx (c : Controller) (r : RxFrame) : Controller :=
  ((((c.rxDropCheck r).rxAckSample r).rxBusySample r).rxStRoute r).rxAppDeliver r

/-- The outcome tag of `Controller::applicationRx`: the two exceptions
(`GeneralError` for an empty frame, `GeneralError::boundary` for missing
head-room), the busy-wait (`usleep(10)` loop while `txListCount_ >=
remMaxBuffers_` and still Open, seen single-threadedly), the silent drop
when not Open, and a completed transmit. -/
inductive AppTag where
  | errEmpty
  | errBoundary
  | blocked
  | dropped
  | sent
deriving DecidableEq, Repr

/-- The header `applicationRx` builds over the caller's frame:
`txInit(false,false)` then `setAck(true)`. -/
def appRxHead : TxHeader := { txInit false false with ack := true }

/-- `Controller::applicationRx(frame)`: reject an empty frame, reject a
first buffer whose head-room cannot hold the header, take the header space
from the first buffer's head-room, initialise the header in place, then
busy-wait on the window, silently return when the state is not Open, and
otherwise transmit with a sequence update.  Returns the outcome, the
controller and the caller's frame as the call leaves them. -/
def Controller.applicationRx (c : Controller) (f : Frame) (now : Nat) :
    AppTag × Controller × Frame :=
  match f.buffers with
  | [] => (.errEmpty, c, f)
  | b :: rest =>
    if b.headRoom < HeaderSize then (.errBoundary, c, f)
    else
      let f1 : Frame := { buffers := { b with headRoom := b.headRoom - HeaderSize } :: rest
                          hdr := some appRxHead }
      if c.state = .StOpen ∧ c.remMaxBuffers ≤ c.txListCount then (.blocked, c, f1)
      else if c.state ≠ .StOpen then (.dropped, c, f1)
      else
        let s := c.transportTx appRxHead true now
        (.sent, s.1, { f1 with hdr := some s.2 })

/-- `Controller::reqFrame`, size computation: `size + HeaderSize`, clamped
to `remMaxSegment_` only when that is non-zero, then clamped to
`segmentSize_`. -/
def Controller.reqFrameSize (c : Controller) (size : Nat) : Nat :=
  let nSize := size + HeaderSize
  let nSize := if nSize > c.remMaxSegment ∧ c.remMaxSegment > 0 then c.remMaxSegment else nSize
  if nSize > c.segmentSize then c.segmentSize else nSize

/-- `Controller::reqFrame`, given the frame the transport slave returned:
check the first buffer can hold the header, extend its head-room by
`HeaderSize`, and trim a multi-buffer frame to a fresh single-buffer frame
around the first buffer.  `Except` models the boundary exception; an
empty transport frame (on which the C++ `getBuffer(0)` is undefined) is
also surfaced as an error. -/
def Controller.reqFrameWrap (f : Frame) : Except Unit Frame :=
  match f.buffers with
  | [] => .error ()
  | b :: rest =>
    if b.getAvailable < HeaderSize then .error ()
    else
      let b1 := { b with headRoom := b.headRoom + HeaderSize }
      if (b :: rest).length > 1 then .ok { buffers := [b1], hdr := none }
      else .ok { buffers := b1 :: rest, hdr := none }

/-- The lines 459-467 while-loop of `stateOpen`, one iteration: advance
`prevAckRx_` (8-bit), release `txList_[prevAckRx_]`, decrement
`txListCount_` (32-bit).  The fuel argument is the remaining number of
iterations, i.e. the mod-256 distance still to walk. -/
def ackAdvanceAux : Nat → Controller → Controller
  | 0, c => c
  | d + 1, c =>
    let p := (c.prevAckRx + 1) % 256
    ackAdvanceAux d
      { c with prevAckRx := p, txList := txSet c.txList p none
               txListCount := decr32 c.txListCount }

/-- The `stateOpen` cumulative-ack update: walk `prevAckRx_` up to the
sampled `lastAckRx_`, releasing one retransmit slot per step. -/
def Controller.ackAdvance (c : Controller) (locAckRx : Nat) : Controller :=
  ackAdvanceAux ((locAckRx + 256 - c.prevAckRx) % 256) c

/-- One iteration of the `stateOpen` retransmission scan at slot `idx`:
peer-busy resets the entry's timer; an expired entry either trips the
Error transition (retry count at `maxRetran_`) or is re-sent through
`transportTx` (whose header mutations write through to the aliased list
entry) with `retranCount_` incremented.  A vacant slot, on which the C++
would dereference a null header, is skipped.  The returned flag reports
the early `return(0)` of the Error transition. -/
def retranAux : Nat → Nat → Nat → Controller → Controller × Bool
  | 0, _, _, c => (c, false)
  | d + 1, idx, now, c =>
    match txGet c.txList idx with
    | none => retranAux d ((idx + 1) % 256) now c
    | some h =>
      if c.tranBusy then
        retranAux d ((idx + 1) % 256) now
          { c with txList := txSet c.txList idx (some { h with time := now }) }
      else if timePassed h.time c.retranTout now then
        if c.maxRetran ≤ h.count then
          ({ c with state := .StError, stTime := now }, true)
        else
          let s := c.transportTx h false now
          retranAux d ((idx + 1) % 256) now
            { s.1 with txList := txSet s.1.txList idx (some s.2)
                       retranCount := incr32 s.1.retranCount }
      else retranAux d ((idx + 1) % 256) now c

/-- `stateOpen` up to and including the retransmission pass: the
cumulative-ack advance (sampling `lastAckRx_` once) followed by the scan
from `locAckRx+1` to `locSequence_-1`; the flag reports the Error early
return. -/
def Controller.openPreSend (c : Controller) (now : Nat) : Controller × Bool :=
  let locAckRx := c.lastAckRx
  let locSeqTx := (c.locSequence + 255) % 256
  let c1 := if locAckRx ≠ c.prevAckRx then c.ackAdvance locAckRx else c
  if locAckRx ≠ locSeqTx then
    retranAux ((locSeqTx + 256 - locAckRx) % 256) ((locAckRx + 1) % 256) now c1
  else (c1, false)

/-- `stateOpen`: `ackPend`, the 8-bit count of sequences accepted but not
yet acknowledged, `(locSeqRx - lastAckTx_) mod 256`. -/
def Controller.openAckPend (c : Controller) : Nat :=
  (c.lastSeqRx + 256 - c.lastAckTx % 256) % 256

/-- `stateOpen`: `doNull`, true when `nullTout_/3` has elapsed since the
last transmit. -/
def Controller.openDoNull (c : Controller) (now : Nat) : Bool :=
  timePassed c.txTime (c.nullTout / 3) now

/-- `stateOpen`: the outbound-frame condition, `doNull || ackPend >=
maxCumAck_ || ((ackPend > 0 || appQueue_.size() > BusyThold) && cumAckTout_
elapsed)`. -/
def Controller.openSendCond (c : Controller) (now : Nat) : Bool :=
  c.openDoNull now || decide (c.maxCumAck ≤ c.openAckPend) ||
    ((decide (0 < c.openAckPend) || decide (BusyThold < c.appQueue.length)) &&
      timePassed c.txTime c.cumAckTout now)

/-- `stateOpen`: the ack/null frame as transmitted — a fresh
`txInit(false,true)` header with `setAck(true)`, `setNul(doNull)`, sent
through `transportTx` with `seqUpdate = doNull`. -/
def Controller.openAckHead (c : Controller) (now : Nat) : TxHeader :=
  (c.transportTx { txInit false true with ack := true, nul := c.openDoNull now }
    (c.openDoNull now) now).2

/-- `Controller::stateOpen`: a pending state-queue frame forces Error;
otherwise run the ack advance and retransmission pass, then send an
ack-only or null frame when `openSendCond` holds; return the next wait,
`convTime(cumAckTout_/2)` (0 on the Error paths). -/
def Controller.stateOpen (c : Controller) (now : Nat) : Controller × Nat :=
  match c.stQueue with
  | _ :: rest => ({ c with stQueue := rest, state := .StError, stTime := now }, 0)
  | [] =>
    let pre := c.openPreSend now
    if pre.2 then (pre.1, 0)
    else if pre.1.openSendCond now then
      ((pre.1.transportTx
          { txInit false true with ack := true, nul := pre.1.openDoNull now }
          (pre.1.openDoNull now) now).1,
        convTime (pre.1.cumAckTout / 2))
    else (pre.1, convTime (pre.1.cumAckTout / 2))

/-- The SYN frame `stateClosedWait` builds: `txInit(true,true)` followed by
the version, checksum-enable, parameter-advertisement and connection-id
setters. -/
def Controller.synHead (c : Controller) : TxHeader :=
  { txInit true true with
    version := Version, chk := true
    maxOutstandingSegments := LocMaxBuffers, maxSegmentSize := c.segmentSize
    retransmissionTimeout := c.retranTout, cumulativeAckTimeout := c.cumAckTout
    nullTimeout := c.nullTout, maxRetransmissions := c.maxRetran
    maxCumulativeAck := c.maxCumAck, timeoutUnit := TimeoutUnit
    connectionId := c.locConnId }

/-- `stateClosedWait`, head-of-queue case: a RST returns to Closed; a
SYN-ACK records the peer's parameters, captures `prevAckRx_` from its
acknowledge and moves to SendSeqAck. -/
def Controller.closedWaitPop (c : Controller) (h : RxFrame) (rest : List RxFrame)
    (now : Nat) : Controller :=
  if h.rst then { c with stQueue := rest, state := .StClosed }
  else if h.syn ∧ h.ack then
    { c with stQueue := rest
             remMaxBuffers := h.maxOutstandingSegments
             remMaxSegment := h.maxSegmentSize
             retranTout := h.retransmissionTimeout
             cumAckTout := h.cumulativeAckTimeout
             nullTout := h.nullTimeout
             maxRetran := h.maxRetransmissions
             maxCumAck := h.maxCumulativeAck
             prevAckRx := h.acknowledge
             state := .StSendSeqAck
             stTime := now }
  else { c with stQueue := rest }

/-- `Controller::stateClosedWait`: consume a pending SYN-ACK or RST, or
(once `TryPeriod` has passed) emit a SYN carrying the local parameters and
enter WaitSyn; the wait returned is always `convTime(TryPeriod)/4`. -/
def Controller.stateClosedWait (c : Controller) (now : Nat) : Controller × Nat :=
  match c.stQueue with
  | h :: rest => (c.closedWaitPop h rest now, convTime TryPeriod / 4)
  | [] =>
    if timePassed c.stTime TryPeriod now then
      ({ (c.transportTx c.synHead true now).1 with stTime := now, state := .StWaitSyn },
        convTime TryPeriod / 4)
    else (c, convTime TryPeriod / 4)

/-- `Controller::stateSendSeqAck`: send a pure ack (`txInit(false,true)`,
`setAck(true)`, `setNul(false)`, no sequence update) and open the
connection; wait `convTime(cumAckTout_/2)`. -/
def Controller.stateSendSeqAck (c : Controller) (now : Nat) : Controller × Nat :=
  ({ (c.transportTx { txInit false true with ack := true, nul := false } false now).1
      with state := .StOpen },
    convTime (c.cumAckTout / 2))

/-- `Controller::stateError`: send a RST (with a sequence update), then
clear every retransmit slot and zero `txListCount_`, bump `downCount_`,
return to Closed and reset both queues; wait `convTime(TryPeriod)`. -/
def Controller.stateError (c : Controller) (now : Nat) : Controller × Nat :=
  let c1 := (c.transportTx { txInit false true with rst := true } true now).1
  ({ c1 with txList := fun _ => none, txListCount := 0
             downCount := incr32 c1.downCount, state := .StClosed
             appQueue := [], stQueue := [], stTime := now },
    convTime TryPeriod)

/-- One pass of the `runThread` state dispatch at wake-up time `now`. -/
def Controller.tick (c : Controller) (now : Nat) : Controller × Nat :=
  match c.state with
  | .StClosed | .StWaitSyn => c.stateClosedWait now
  | .StSendSeqAck => c.stateSendSeqAck now
  | .StOpen => c.stateOpen now
  | .StError => c.stateError now

/-- One `appQueue_.pop()` of `Controller::applicationTx`: record the popped
header's sequence into `lastSeqRx_` (the loop pops again on NUL/SYN). -/
def Controller.applicationTxPop (c : Controller) : Controller :=
  match c.appQueue with
  | [] => c
  | h :: rest => { c with appQueue := rest, lastSeqRx := h.sequence }

/-- The states the controller can reach: the constructor state followed by
any interleaving of transport receives, application receives (whatever
their outcome), application-side pops and state-machine ticks. -/
inductive Reachable : Controller → Prop where
  | init (segSize : Nat) : Reachable (Controller.init segSize)
  | transportRx {c : Controller} (r : RxFrame) :
      Reachable c → Reachable (c.transportRx r)
  | applicationRx {c : Controller} (f : Frame) (now : Nat) :
      Reachable c → Reachable (c.applicationRx f now).2.1
  | applicationTxPop {c : Controller} :
      Reachable c → Reachable c.applicationTxPop
  | tick {c : Controller} (now : Nat) :
      Reachable c → Reachable (c.tick now).1

/-! Concrete states and inputs used by the individual verification
results below. -/

/-- An open connection expecting sequence 7 with `lastAckRx_ = 5`. -/
def c1state : Controller :=
  { Controller.init 1500 with state := .StOpen, nextSeqRx := 7, lastAckRx := 5 }

/-- A frame whose checksum fails `verify()` but which carries ACK, NUL and
BSY, the in-order sequence 7 and acknowledge 9. -/
def r1bad : RxFrame :=
  { syn := false, ack := true, rst := false, nul := true, bsy := true
    sequence := 7, acknowledge := 9, bufCount := 1, payload := 0, verifyOk := false
    maxOutstandingSegments := 0, maxSegmentSize := 0, retransmissionTimeout := 0
    cumulativeAckTimeout := 0, nullTimeout := 0, maxRetransmissions := 0
    maxCumulativeAck := 0 }

/-- A data header originally transmitted with sequence 5 (sent once,
`count = 1`, at time 0). -/
def h5 : TxHeader := { txInit false false with ack := true, sequence := 5, count := 1 }

/-- An open connection with the single unacknowledged entry `h5` in
retransmit slot 5 and `locSequence_ = 6`; its retransmission timeout (10
time units) has long expired at time 2000000. -/
def c2state : Controller :=
  { Controller.init 1500 with
    state := .StOpen, lastAckRx := 4, prevAckRx := 4, locSequence := 6
    txList := txSet (fun _ => none) 5 (some h5), txListCount := 1
    remMaxBuffers := 8 }

/-- The peer's SYN-ACK for the handshake trace: it advertises a window of
one outstanding segment (`maxOutstandingSegments = 1`) and acknowledges
the controller's SYN (sequence 100). -/
def synackC3 : RxFrame :=
  { syn := true, ack := true, rst := false, nul := false, bsy := false
    sequence := 50, acknowledge := 100, bufCount := 1, payload := 0, verifyOk := true
    maxOutstandingSegments := 1, maxSegmentSize := 1500, retransmissionTimeout := 1000
    cumulativeAckTimeout := 500, nullTimeout := 3, maxRetransmissions := 15
    maxCumulativeAck := 2 }

/-- Handshake trace, step 1: the first tick after `TryPeriod` emits the
SYN (sequence 100) and enters WaitSyn. -/
def c3s1 : Controller := ((Controller.init 1500).tick 200000).1

/-- Handshake trace, step 2: the SYN-ACK arrives. -/
def c3s2 : Controller := c3s1.transportRx synackC3

/-- Handshake trace, step 3: the tick consumes the SYN-ACK, records the
peer parameters (`remMaxBuffers = 1`) and enters SendSeqAck. -/
def c3s3 : Controller := (c3s2.tick 210000).1

/-- Handshake trace, step 4: the sequence ack is sent and the connection
opens (one retransmit-list entry, the SYN, is still counted). -/
def c3s4 : Controller := (c3s3.tick 220000).1

/-- Handshake trace, step 5: an idle tick after `nullTout_/3` sends a NUL
keepalive with a sequence update and no window check. -/
def c3s5 : Controller := (c3s4.tick 222000).1

/-- An open connection with window room (`remMaxBuffers = 5`). -/
def c3w : Controller :=
  { Controller.init 1500 with state := .StOpen, remMaxBuffers := 5 }

/-- A placeholder data header for populating retransmit slots. -/
def seqHead (n : Nat) : TxHeader := { txInit false false with sequence := n }

/-- An open connection with sequences 20, 21, 22 outstanding and
`prevAckRx_ = 19`. -/
def c4state : Controller :=
  { Controller.init 1500 with
    state := .StOpen, prevAckRx := 19, lastAckRx := 22, locSequence := 23
    txList := txSet (txSet (txSet (fun _ => none) 20 (some (seqHead 20))) 21
      (some (seqHead 21))) 22 (some (seqHead 22))
    txListCount := 3 }

/-- An idle open connection (nothing outstanding: `lastAckRx_ =
locSequence_ - 1`) whose last transmit was at time 0. -/
def c7w : Controller :=
  { Controller.init 1500 with
    state := .StOpen, lastAckRx := 9, prevAckRx := 9, locSequence := 10
    remMaxBuffers := 4 }

/-- A peer SYN-ACK advertising `maxSegmentSize = 0`. -/
def synackSeg0 : RxFrame := { synackC3 with maxSegmentSize := 0 }

/-- A controller that accepted `synackSeg0`, leaving `remMaxSegment_ = 0`. -/
def c8bad : Controller :=
  ((((Controller.init 1500).tick 200000).1.transportRx synackSeg0).tick 210000).1

/-- A single-buffer transport frame with 62 free bytes. -/
def tf62 : Frame :=
  { buffers := [{ rawSize := 62, headRoom := 0, tailRoom := 0, payload := 0 }], hdr := none }

/-- A closed controller (for the silent-drop paths). -/
def c9c : Controller := Controller.init 1500

/-- An application frame with one buffer and 40 bytes of head-room. -/
def f9 : Frame :=
  { buffers := [{ rawSize := 100, headRoom := 40, tailRoom := 0, payload := 40 }], hdr := none }

/-- An application frame whose first buffer has only 4 bytes of head-room. -/
def f9short : Frame :=
  { buffers := [{ rawSize := 100, headRoom := 4, tailRoom := 0, payload := 4 }], hdr := none }

/-- An out-of-order data frame: good checksum, payload, but sequence 9
where `c1state` expects 7; neither SYN nor RST. -/
def r5oo : RxFrame :=
  { syn := false, ack := false, rst := false, nul := false, bsy := false
    sequence := 9, acknowledge := 0, bufCount := 1, payload := 40, verifyOk := true
    maxOutstandingSegments := 0, maxSegmentSize := 0, retransmissionTimeout := 0
    cumulativeAckTimeout := 0, nullTimeout := 0, maxRetransmissions := 0
    maxCumulativeAck := 0 }

/-! The verification results. -/

/-- C1: the claim says a frame with an empty buffer list or a failing
`verify()` only increments the drop counter and is processed no further.
The C++ (line 137) increments `dropCount_` but has no `return`, so the
frame `r1bad` — whose `verify()` is false — still updates `lastAckRx_`
and `tranBusy_`, advances `nextSeqRx_` and is delivered to `appQueue_`. -/
theorem transportRx_bad_frame_still_processed :
    (c1state.transportRx r1bad).dropCount = incr32 c1state.dropCount
    ∧ r1bad.verifyOk = false
    ∧ c1state.lastAckRx = 5 ∧ (c1state.transportRx r1bad).lastAckRx = 9
    ∧ c1state.tranBusy = false ∧ (c1state.transportRx r1bad).tranBusy = true
    ∧ c1state.nextSeqRx = 7 ∧ (c1state.transportRx r1bad).nextSeqRx = 8
    ∧ (c1state.transportRx r1bad).appQueue = c1state.appQueue ++ [r1bad] := by
  decide

/-- C2: the claim says a retransmission re-sends the stored header with
its sequence field unchanged.  `transportTx` (line 261) runs
`head->setSequence(locSequence_)` unconditionally, so the expired entry
`h5` (original sequence 5) is re-sent carrying sequence 6 — the current
`locSequence_` — and, through the aliased list entry, slot 5 now also
holds sequence 6. -/
theorem retransmit_rewrites_sequence :
    ((c2state.stateOpen 2000000).1.sent.map fun h => h.sequence) = [6]
    ∧ (txGet c2state.txList 5).map (fun h => h.sequence) = some 5
    ∧ ((txGet (c2state.stateOpen 2000000).1.txList 5).map fun h => h.sequence) = some 6
    ∧ (c2state.stateOpen 2000000).1.retranCount = incr32 c2state.retranCount := by
  decide

/-- C3 counterexample: along the ordinary handshake (SYN at time 200000,
peer SYN-ACK advertising a window of 1, sequence ack, then one idle tick)
the controller reaches a state with `remMaxBuffers = 1` and
`txListCount = 2`: the null-keepalive path of `stateOpen` performs a
sequence-updating transmit with no window check.  This refutes the claim
that `txListCount` never exceeds `remMaxBuffers` in reachable states with
`remMaxBuffers > 0`. -/
theorem reachable_txListCount_exceeds_window :
    Reachable c3s5 ∧ 0 < c3s5.remMaxBuffers
    ∧ c3s5.remMaxBuffers < c3s5.txListCount := by
  refine ⟨?_, by decide, by decide⟩
  exact Reachable.tick 222000 (Reachable.tick 220000 (Reachable.tick 210000
    (Reachable.transportRx synackC3 (Reachable.tick 200000 (Reachable.init 1500)))))

/-- C3 (amended): the `applicationRx` data path does respect the window —
it transmits only after the busy-wait observes `txListCount_ <
remMaxBuffers_`, so a completed `applicationRx` transmit leaves
`txListCount ≤ remMaxBuffers`.  (The null-keepalive, SYN and RST transmit
paths carry no such check; see the counterexample.) -/
theorem applicationRx_window_bound (c : Controller) (f : Frame) (now : Nat)
    (hmb : c.remMaxBuffers ≤ 4294967296)
    (hs : (c.applicationRx f now).1 = AppTag.sent) :
    (c.applicationRx f now).2.1.txListCount ≤ c.remMaxBuffers := by
  rcases f with ⟨bufs, hdr0⟩
  rcases bufs with _ | ⟨b, rest⟩
  · simp [Controller.applicationRx] at hs
  · by_cases h1 : b.headRoom < HeaderSize
    · simp [Controller.applicationRx, h1] at hs
    · by_cases h3 : c.state = .StOpen
      · by_cases h2 : c.remMaxBuffers ≤ c.txListCount
        · simp [Controller.applicationRx, h1, h2, h3] at hs
        · simp [Controller.applicationRx, Controller.transportTx, h1, h2, h3, incr32]
          omega
      · simp [Controller.applicationRx, h1, h3] at hs

/-- C3 witness: a concrete open controller with window 5 whose
`applicationRx` transmit stays within the window. -/
theorem applicationRx_window_bound_witness :
    (c3w.applicationRx f9 5).2.1.txListCount ≤ c3w.remMaxBuffers :=
  applicationRx_window_bound c3w f9 5 (by decide) (by decide)

/-- After `d` iterations of the ack-advance loop, `prevAckRx_` has moved
forward by `d` steps modulo 256. -/
theorem ackAdvanceAux_prevAckRx (d : Nat) :
    ∀ c : Controller, c.prevAckRx < 256 →
      (ackAdvanceAux d c).prevAckRx = (c.prevAckRx + d) % 256 := by
  induction d with
  | zero => intro c h; simp [ackAdvanceAux]; omega
  | succ d ih =>
    intro c h
    simp only [ackAdvanceAux]
    rw [ih _ (by show (c.prevAckRx + 1) % 256 < 256; omega)]
    show ((c.prevAckRx + 1) % 256 + d) % 256 = (c.prevAckRx + (d + 1)) % 256
    omega

/-- After `d` iterations of the ack-advance loop, `txListCount_` has been
decremented `d` times (no 32-bit wrap when `d` entries are really live). -/
theorem ackAdvanceAux_txListCount (d : Nat) :
    ∀ c : Controller, d ≤ c.txListCount → c.txListCount < 4294967296 →
      (ackAdvanceAux d c).txListCount = c.txListCount - d := by
  induction d with
  | zero => intro c _ _; simp [ackAdvanceAux]
  | succ d ih =>
    intro c hd hc
    simp only [ackAdvanceAux]
    have hdec : decr32 c.txListCount = c.txListCount - 1 := by
      unfold decr32; omega
    rw [ih _ (by show d ≤ decr32 c.txListCount; omega) (by show decr32 c.txListCount < 4294967296; omega)]
    show decr32 c.txListCount - d = c.txListCount - (d + 1)
    omega

/-- The ack-advance loop only ever empties slots: a slot after the loop is
either `none` or exactly what it was before. -/
theorem ackAdvanceAux_slot_none_or_same (d : Nat) :
    ∀ (c : Controller) (i : Fin 256),
      (ackAdvanceAux d c).txList i = none ∨ (ackAdvanceAux d c).txList i = c.txList i := by
  induction d with
  | zero => intro c i; right; rfl
  | succ d ih =>
    intro c i
    simp only [ackAdvanceAux]
    rcases ih _ i with h | h
    · exact Or.inl h
    · rw [h]
      show txSet c.txList ((c.prevAckRx + 1) % 256) none i = none
        ∨ txSet c.txList ((c.prevAckRx + 1) % 256) none i = c.txList i
      simp only [txSet]
      split_ifs
      · exact Or.inl rfl
      · exact Or.inr rfl

/-- Any slot in the walked interval — the slot touched at step `k`,
`1 ≤ k ≤ d` — is empty after the loop. -/
theorem ackAdvanceAux_slot_cleared (d : Nat) :
    ∀ c : Controller, c.prevAckRx < 256 →
      ∀ (i : Fin 256) (k : Nat), 1 ≤ k → k ≤ d → (c.prevAckRx + k) % 256 = i.val →
        (ackAdvanceAux d c).txList i = none := by
  induction d with
  | zero => intro c _ i k hk1 hkd _; omega
  | succ d ih =>
    intro c h i k hk1 hkd hik
    simp only [ackAdvanceAux]
    rcases Nat.lt_or_ge 1 k with hk | hk
    · refine ih _ ?_ i (k - 1) (by omega) (by omega) ?_
      · show (c.prevAckRx + 1) % 256 < 256
        omega
      · show ((c.prevAckRx + 1) % 256 + (k - 1)) % 256 = i.val
        omega
    · have hk1' : k = 1 := by omega
      subst hk1'
      rcases ackAdvanceAux_slot_none_or_same d _ i with h' | h'
      · exact h'
      · rw [h']
        show txSet c.txList ((c.prevAckRx + 1) % 256) none i = none
        simp only [txSet]
        split_ifs with hc
        · rfl
        · omega

/-- A slot outside the walked interval is untouched by the loop. -/
theorem ackAdvanceAux_slot_untouched (d : Nat) :
    ∀ c : Controller, c.prevAckRx < 256 →
      ∀ i : Fin 256, (∀ k, 1 ≤ k → k ≤ d → (c.prevAckRx + k) % 256 ≠ i.val) →
        (ackAdvanceAux d c).txList i = c.txList i := by
  induction d with
  | zero => intro c _ i _; rfl
  | succ d ih =>
    intro c h i hmiss
    simp only [ackAdvanceAux]
    have h1 := hmiss 1 (by omega) (by omega)
    rw [ih _ (by show (c.prevAckRx + 1) % 256 < 256; omega) i ?_]
    · show txSet c.txList ((c.prevAckRx + 1) % 256) none i = c.txList i
      simp only [txSet]
      split_ifs with hc
      · omega
      · rfl
    · intro k hk1 hkd
      have := hmiss (k + 1) (by omega) (by omega)
      show ((c.prevAckRx + 1) % 256 + k) % 256 ≠ i.val
      omega

/-- C4: when the Open-state tick sees `lastAckRx_ ≠ prevAckRx_` it walks
`prevAckRx_` one step at a time to the sampled ack: writing `d` for the
mod-256 distance `(target + 256 - prevAckRx) % 256`, afterwards
`prevAckRx = target`, `txListCount` has gone down by exactly `d`, every
slot in the mod-256 interval `(prevAckRx, target]` (the slot reached at
step `k`, `1 ≤ k ≤ d`) is released exactly once, and every other slot is
untouched. -/
theorem ackAdvance_releases_interval (c : Controller) (target : Nat)
    (hp : c.prevAckRx < 256) (ht : target < 256)
    (hd : (target + 256 - c.prevAckRx) % 256 ≤ c.txListCount)
    (hc : c.txListCount < 4294967296) :
    (c.ackAdvance target).prevAckRx = target
    ∧ (c.ackAdvance target).txListCount
        = c.txListCount - (target + 256 - c.prevAckRx) % 256
    ∧ ∀ i : Fin 256,
        ((∃ k, 1 ≤ k ∧ k ≤ (target + 256 - c.prevAckRx) % 256
            ∧ (c.prevAckRx + k) % 256 = i.val) →
          (c.ackAdvance target).txList i = none)
      ∧ ((∀ k, 1 ≤ k → k ≤ (target + 256 - c.prevAckRx) % 256
            → (c.prevAckRx + k) % 256 ≠ i.val) →
          (c.ackAdvance target).txList i = c.txList i) := by
  unfold Controller.ackAdvance
  refine ⟨?_, ackAdvanceAux_txListCount _ _ hd hc, fun i => ⟨?_, ?_⟩⟩
  · rw [ackAdvanceAux_prevAckRx _ _ hp]
    omega
  · rintro ⟨k, hk1, hkd, hik⟩
    exact ackAdvanceAux_slot_cleared _ _ hp i k hk1 hkd hik
  · intro hmiss
    exact ackAdvanceAux_slot_untouched _ _ hp i hmiss

/-- C4 witness: with sequences 20, 21, 22 outstanding and `prevAckRx_ =
19`, an incoming cumulative ack of 22 releases all three slots, drives
`txListCount` to 0 and leaves `prevAckRx = 22`. -/
theorem ackAdvance_releases_interval_witness :
    (c4state.ackAdvance 22).prevAckRx = 22
    ∧ (c4state.ackAdvance 22).txListCount = 0
    ∧ (c4state.ackAdvance 22).txList (20 : Fin 256) = none
    ∧ (c4state.ackAdvance 22).txList (21 : Fin 256) = none
    ∧ (c4state.ackAdvance 22).txList (22 : Fin 256) = none
    ∧ (c4state.ackAdvance 22).txList (19 : Fin 256) = c4state.txList (19 : Fin 256) := by
  have h := ackAdvance_releases_interval c4state 22 (by decide) (by decide)
    (by decide) (by decide)
  refine ⟨h.1, by rw [h.2.1]; decide, ?_, ?_, ?_, ?_⟩
  · exact (h.2.2 (20 : Fin 256)).1 ⟨1, by omega, by decide, by decide⟩
  · exact (h.2.2 (21 : Fin 256)).1 ⟨2, by omega, by decide, by decide⟩
  · exact (h.2.2 (22 : Fin 256)).1 ⟨3, by omega, by decide, by decide⟩
  · exact (h.2.2 (19 : Fin 256)).2 (by decide)

/-- C5: `transportRx` delivers the header to `appQueue` exactly when it is
a SYN, or the state is Open, the header is a NUL or carries payload beyond
the header, and its sequence equals `nextSeqRx_`; on a SYN delivery
`nextSeqRx_` becomes `sequence + 1`, on any other delivery it is
incremented, and otherwise it is untouched.  `transportRx` never sends
(`sent` unchanged), and a non-SYN non-RST frame is not buffered in
`stQueue` either, so an out-of-sequence data frame is dropped without
reply or buffering. -/
theorem rxDropCheck_fields (c : Controller) (r : RxFrame) :
    (c.rxDropCheck r).state = c.state ∧ (c.rxDropCheck r).nextSeqRx = c.nextSeqRx
    ∧ (c.rxDropCheck r).appQueue = c.appQueue ∧ (c.rxDropCheck r).stQueue = c.stQueue
    ∧ (c.rxDropCheck r).sent = c.sent := by
  unfold Controller.rxDropCheck
  split_ifs <;> exact ⟨rfl, rfl, rfl, rfl, rfl⟩

theorem rxAckSample_fields (c : Controller) (r : RxFrame) :
    (c.rxAckSample r).state = c.state ∧ (c.rxAckSample r).nextSeqRx = c.nextSeqRx
    ∧ (c.rxAckSample r).appQueue = c.appQueue ∧ (c.rxAckSample r).stQueue = c.stQueue
    ∧ (c.rxAckSample r).sent = c.sent := by
  unfold Controller.rxAckSample
  split_ifs <;> exact ⟨rfl, rfl, rfl, rfl, rfl⟩

theorem rxBusySample_fields (c : Controller) (r : RxFrame) :
    (c.rxBusySample r).state = c.state ∧ (c.rxBusySample r).nextSeqRx = c.nextSeqRx
    ∧ (c.rxBusySample r).appQueue = c.appQueue ∧ (c.rxBusySample r).stQueue = c.stQueue
    ∧ (c.rxBusySample r).sent = c.sent :=
  ⟨rfl, rfl, rfl, rfl, rfl⟩

theorem rxStRoute_fields (c : Controller) (r : RxFrame) :
    (c.rxStRoute r).state = c.state ∧ (c.rxStRoute r).nextSeqRx = c.nextSeqRx
    ∧ (c.rxStRoute r).appQueue = c.appQueue ∧ (c.rxStRoute r).sent = c.sent := by
  unfold Controller.rxStRoute
  split_ifs <;> exact ⟨rfl, rfl, rfl, rfl⟩

theorem rxStRoute_stQueue_of_not (c : Controller) (r : RxFrame)
    (h : ¬ (r.syn ∨ r.rst)) : (c.rxStRoute r).stQueue = c.stQueue := by
  unfold Controller.rxStRoute
  rw [if_neg]
  rintro ⟨-, hsr⟩
  exact h hsr

theorem rxAppDeliver_stQueue (c : Controller) (r : RxFrame) :
    (c.rxAppDeliver r).stQueue = c.stQueue := by
  unfold Controller.rxAppDeliver
  split_ifs <;> rfl

theorem rxAppDeliver_sent (c : Controller) (r : RxFrame) :
    (c.rxAppDeliver r).sent = c.sent := by
  unfold Controller.rxAppDeliver
  split_ifs <;> rfl

theorem rxAppDeliver_spec (c : Controller) (r : RxFrame) :
    if r.syn ∨ (c.state = .StOpen ∧ (r.nul ∨ r.payload > HeaderSize)
        ∧ r.sequence = c.nextSeqRx)
    then (c.rxAppDeliver r).appQueue = c.appQueue ++ [r]
      ∧ (c.rxAppDeliver r).nextSeqRx
          = if r.syn then (r.sequence + 1) % 256 else (c.nextSeqRx + 1) % 256
    else (c.rxAppDeliver r).appQueue = c.appQueue
      ∧ (c.rxAppDeliver r).nextSeqRx = c.nextSeqRx := by
  unfold Controller.rxAppDeliver
  split_ifs <;> exact ⟨rfl, rfl⟩

/-- C5: `transportRx` delivers the header to `appQueue` exactly when it is
a SYN, or the state is Open, the header is a NUL or carries payload beyond
the header, and its sequence equals `nextSeqRx_`; on a SYN delivery
`nextSeqRx_` becomes `sequence + 1`, on any other delivery it is
incremented, and otherwise both are untouched.  `transportRx` never sends
(`sent` unchanged), and a non-SYN non-RST frame is not buffered in
`stQueue` either, so an out-of-sequence data frame is dropped without
reply or buffering. -/
theorem transportRx_app_delivery (c : Controller) (r : RxFrame) :
    (if r.syn ∨ (c.state = .StOpen ∧ (r.nul ∨ r.payload > HeaderSize)
          ∧ r.sequence = c.nextSeqRx)
      then (c.transportRx r).appQueue = c.appQueue ++ [r]
        ∧ (c.transportRx r).nextSeqRx
            = if r.syn then (r.sequence + 1) % 256 else (c.nextSeqRx + 1) % 256
      else (c.transportRx r).appQueue = c.appQueue
        ∧ (c.transportRx r).nextSeqRx = c.nextSeqRx)
    ∧ (c.transportRx r).sent = c.sent
    ∧ (¬ (r.syn ∨ r.rst) → (c.transportRx r).stQueue = c.stQueue) := by
  obtain ⟨hs1, hn1, ha1, hq1, he1⟩ := rxDropCheck_fields c r
  obtain ⟨hs2, hn2, ha2, hq2, he2⟩ := rxAckSample_fields (c.rxDropCheck r) r
  obtain ⟨hs3, hn3, ha3, hq3, he3⟩ :=
    rxBusySample_fields ((c.rxDropCheck r).rxAckSample r) r
  obtain ⟨hs4, hn4, ha4, he4⟩ :=
    rxStRoute_fields (((c.rxDropCheck r).rxAckSample r).rxBusySample r) r
  have hstate : ((((c.rxDropCheck r).rxAckSample r).rxBusySample r).rxStRoute r).state
      = c.state := by rw [hs4, hs3, hs2, hs1]
  have hnext : ((((c.rxDropCheck r).rxAckSample r).rxBusySample r).rxStRoute r).nextSeqRx
      = c.nextSeqRx := by rw [hn4, hn3, hn2, hn1]
  have happ : ((((c.rxDropCheck r).rxAckSample r).rxBusySample r).rxStRoute r).appQueue
      = c.appQueue := by rw [ha4, ha3, ha2, ha1]
  have hsent : ((((c.rxDropCheck r).rxAckSample r).rxBusySample r).rxStRoute r).sent
      = c.sent := by rw [he4, he3, he2, he1]
  have key := rxAppDeliver_spec
    ((((c.rxDropCheck r).rxAckSample r).rxBusySample r).rxStRoute r) r
  rw [hstate, hnext, happ] at key
  refine ⟨key, ?_, ?_⟩
  · show ((((((c.rxDropCheck r).rxAckSample r).rxBusySample r).rxStRoute r).rxAppDeliver r)).sent
      = c.sent
    rw [rxAppDeliver_sent, hsent]
  · intro h
    show ((((((c.rxDropCheck r).rxAckSample r).rxBusySample r).rxStRoute r).rxAppDeliver r)).stQueue
      = c.stQueue
    rw [rxAppDeliver_stQueue, rxStRoute_stQueue_of_not _ _ h, hq3, hq2, hq1]

/-- C5 witness: the open controller `c1state` (expecting sequence 7)
receives the out-of-order data frame `r5oo` (sequence 9): nothing is
delivered, `nextSeqRx` stays 7, nothing is sent and nothing is buffered
for the state machine. -/
theorem transportRx_app_delivery_witness :
    (c1state.transportRx r5oo).appQueue = c1state.appQueue
    ∧ (c1state.transportRx r5oo).nextSeqRx = c1state.nextSeqRx
    ∧ (c1state.transportRx r5oo).sent = c1state.sent
    ∧ (c1state.transportRx r5oo).stQueue = c1state.stQueue := by
  obtain ⟨h1, h2, h3⟩ := transportRx_app_delivery c1state r5oo
  rw [if_neg (by decide)] at h1
  exact ⟨h1.1, h1.2, h2, h3 (by decide)⟩

theorem transportTx_sent (c : Controller) (h : TxHeader) (u : Bool) (now : Nat) :
    (c.transportTx h u now).1.sent = c.sent ++ [(c.transportTx h u now).2] := by
  unfold Controller.transportTx
  split_ifs <;> rfl

theorem transportTx_false_fields (c : Controller) (h : TxHeader) (now : Nat) :
    (c.transportTx h false now).1.locSequence = c.locSequence
    ∧ (c.transportTx h false now).1.txListCount = c.txListCount
    ∧ ∀ i : Fin 256, (c.transportTx h false now).1.txList i = c.txList i :=
  ⟨rfl, rfl, fun _ => rfl⟩

theorem txGet_txSet (t : TxList) (n : Nat) (v : Option TxHeader) :
    txGet (txSet t n v) n = v := by
  simp [txGet, txSet]

theorem transportTx_true_fields (c : Controller) (h : TxHeader) (now : Nat) :
    (c.transportTx h true now).1.locSequence = (c.locSequence + 1) % 256
    ∧ (c.transportTx h true now).1.txListCount = incr32 c.txListCount
    ∧ txGet (c.transportTx h true now).1.txList c.locSequence
        = some (c.transportTx h true now).2 :=
  ⟨rfl, rfl, txGet_txSet c.txList c.locSequence (some (c.transportTx h true now).2)⟩

/-- C6: every execution of `stateError` sends one more frame with the RST
flag, leaves all 256 retransmit slots empty with `txListCount = 0`
(although the RST itself was stored there first), resets both queues,
increments `downCount` by exactly one, sets the state to Closed and
returns a wait of `convTime(TryPeriod)`; so the txList is empty and the
subsequent state is Closed after the single Error tick. -/
theorem stateError_teardown (c : Controller) (now : Nat)
    (h : c.downCount + 1 < 4294967296) :
    ((c.stateError now).1.sent.map fun x => x.rst) = (c.sent.map fun x => x.rst) ++ [true]
    ∧ (∀ i : Fin 256, (c.stateError now).1.txList i = none)
    ∧ (c.stateError now).1.txListCount = 0
    ∧ (c.stateError now).1.appQueue = []
    ∧ (c.stateError now).1.stQueue = []
    ∧ (c.stateError now).1.downCount = c.downCount + 1
    ∧ (c.stateError now).1.state = .StClosed
    ∧ (c.stateError now).2 = convTime TryPeriod := by
  refine ⟨?_, fun i => rfl, rfl, rfl, rfl, ?_, rfl, rfl⟩
  · show ((c.sent ++ [(c.transportTx { txInit false true with rst := true } true now).2]).map
        fun x => x.rst) = (c.sent.map fun x => x.rst) ++ [true]
    rw [List.map_append]
    rfl
  · show incr32 ((c.transportTx { txInit false true with rst := true } true now).1.downCount)
        = c.downCount + 1
    have hdc : (c.transportTx { txInit false true with rst := true } true now).1.downCount
        = c.downCount := rfl
    rw [hdc]
    unfold incr32
    omega

/-- C6 witness: tearing down the freshly constructed controller. -/
theorem stateError_teardown_witness :
    (c9c.stateError 0).1.txListCount = 0
    ∧ (c9c.stateError 0).1.downCount = c9c.downCount + 1
    ∧ (c9c.stateError 0).1.state = .StClosed := by
  have h := stateError_teardown c9c 0 (by decide)
  exact ⟨h.2.2.1, h.2.2.2.2.2.1, h.2.2.2.2.2.2.1⟩

/-- C7: once an Open tick has passed the state-queue check and the
retransmission pass without an Error transition, an ack-only or null-ack
frame is transmitted iff `openSendCond` holds — `doNull`, or `ackPend ≥
maxCumAck`, or `(ackPend > 0 ∨ appQueue.size > BusyThold)` with
`cumAckTout` elapsed; a null frame is stored in the retransmit list at the
consumed sequence number (`locSequence` advances, `txListCount` grows),
while a pure ack consumes no sequence number and stores nothing. -/
theorem stateOpen_ack_null_send (c : Controller) (now : Nat)
    (hq : c.stQueue = []) (herr : (c.openPreSend now).2 = false) :
    ((c.stateOpen now).1.sent =
        if (c.openPreSend now).1.openSendCond now
        then (c.openPreSend now).1.sent ++ [(c.openPreSend now).1.openAckHead now]
        else (c.openPreSend now).1.sent)
    ∧ ((c.openPreSend now).1.openSendCond now = true →
        (c.openPreSend now).1.openDoNull now = true →
          (c.stateOpen now).1.locSequence = ((c.openPreSend now).1.locSequence + 1) % 256
          ∧ (c.stateOpen now).1.txListCount = incr32 ((c.openPreSend now).1.txListCount)
          ∧ txGet (c.stateOpen now).1.txList ((c.openPreSend now).1.locSequence)
              = some ((c.openPreSend now).1.openAckHead now))
    ∧ ((c.openPreSend now).1.openSendCond now = true →
        (c.openPreSend now).1.openDoNull now = false →
          (c.stateOpen now).1.locSequence = (c.openPreSend now).1.locSequence
          ∧ (c.stateOpen now).1.txListCount = (c.openPreSend now).1.txListCount
          ∧ ∀ i : Fin 256, (c.stateOpen now).1.txList i = (c.openPreSend now).1.txList i) := by
  cases hcond : (c.openPreSend now).1.openSendCond now with
  | false =>
    have hso : c.stateOpen now = ((c.openPreSend now).1, convTime ((c.openPreSend now).1.cumAckTout / 2)) := by
      simp only [Controller.stateOpen, hq, herr, hcond, Bool.false_eq_true, if_false]
    refine ⟨?_, ?_, ?_⟩
    · rw [hso, if_neg (by simp [hcond])]
    · intro h1 _
      exact absurd h1 (by simp)
    · intro h1 _
      exact absurd h1 (by simp)
  | true =>
    have hso : c.stateOpen now =
        (((c.openPreSend now).1.transportTx
            { txInit false true with ack := true, nul := (c.openPreSend now).1.openDoNull now }
            ((c.openPreSend now).1.openDoNull now) now).1,
          convTime ((c.openPreSend now).1.cumAckTout / 2)) := by
      simp only [Controller.stateOpen, hq, herr, hcond, Bool.false_eq_true, if_false, if_true]
    have heq : (c.openPreSend now).1.openAckHead now
        = ((c.openPreSend now).1.transportTx
            { txInit false true with ack := true, nul := (c.openPreSend now).1.openDoNull now }
            ((c.openPreSend now).1.openDoNull now) now).2 := rfl
    refine ⟨?_, ?_, ?_⟩
    · rw [hso, if_pos rfl, heq]
      exact transportTx_sent _ _ _ _
    · intro _ hnul
      rw [hso, heq]
      simp only [hnul]
      exact transportTx_true_fields _ _ _
    · intro _ hnul
      rw [hso]
      simp only [hnul]
      exact transportTx_false_fields _ _ _

/-- C7 witness: an idle open controller whose `nullTout_/3` has elapsed at
time 2000 sends a null-ack that consumes sequence 10. -/
theorem stateOpen_ack_null_send_witness :
    (c7w.stateOpen 2000).1.locSequence = 11
    ∧ (c7w.stateOpen 2000).1.txListCount = incr32 (c7w.openPreSend 2000).1.txListCount := by
  have h := (stateOpen_ack_null_send c7w 2000 rfl (by decide)).2.1 (by decide) (by decide)
  refine ⟨?_, h.2.1⟩
  rw [h.1]
  decide

/-- C8 counterexample: after a peer SYN-ACK advertising `maxSegmentSize =
0` the controller has `remMaxSegment = 0` (reachable through
`stateClosedWait`), and `reqFrame(50, _)` then asks the transport for 62
bytes (`50 + HeaderSize`), not `min(50 + HeaderSize, remMaxSegment,
segmentSize) = 0`: the `remMaxSegment` clamp is guarded by
`remMaxSegment_ > 0`. -/
theorem reqFrameSize_not_min_of_three :
    c8bad.remMaxSegment = 0
    ∧ c8bad.reqFrameSize 50 = 62
    ∧ min (50 + HeaderSize) (min c8bad.remMaxSegment c8bad.segmentSize) = 0 := by
  decide

/-- C8 (amended): for `remMaxSegment > 0` the requested size is exactly
`min(size + HeaderSize, remMaxSegment, segmentSize)` (with `remMaxSegment
= 0` the middle clamp is skipped); header head-room is reserved on the
first buffer of the frame the transport returned; and the frame
`reqFrame` hands back always has exactly one buffer — the adjusted first
buffer — whether or not the transport returned a multi-buffer frame. -/
theorem reqFrame_single_buffer (c : Controller) (size : Nat) (f : Frame)
    (b : Buffer) (rest : List Buffer) (hb : f.buffers = b :: rest)
    (hm : 0 < c.remMaxSegment) (hav : HeaderSize ≤ b.getAvailable) :
    c.reqFrameSize size = min (size + HeaderSize) (min c.remMaxSegment c.segmentSize)
    ∧ Controller.reqFrameWrap f
        = .ok { buffers := [{ b with headRoom := b.headRoom + HeaderSize }], hdr := none } := by
  have hav' : ¬ b.getAvailable < HeaderSize := by omega
  constructor
  · simp only [Controller.reqFrameSize, Nat.min_def]
    split_ifs <;> omega
  · rcases f with ⟨bufs, hdr0⟩
    simp only at hb
    subst hb
    cases rest with
    | nil => simp [Controller.reqFrameWrap, hav']
    | cons b2 rest2 => simp [Controller.reqFrameWrap, hav']

/-- C8 witness: a 50-byte request against the freshly negotiated defaults
(`remMaxSegment = 100`), and a single-buffer 62-byte transport frame. -/
theorem reqFrame_single_buffer_witness :
    c3w.reqFrameSize 50 = min (50 + HeaderSize) (min c3w.remMaxSegment c3w.segmentSize)
    ∧ Controller.reqFrameWrap tf62
        = .ok { buffers := [{ rawSize := 62, headRoom := 0 + HeaderSize, tailRoom := 0,
                              payload := 0 }], hdr := none } :=
  reqFrame_single_buffer c3w 50 tf62
    { rawSize := 62, headRoom := 0, tailRoom := 0, payload := 0 } [] rfl
    (by decide) (by decide)

/-- C9: `applicationRx` raises an exception exactly when the frame has no
buffers (`GeneralError`, "Frame must not be empty") or the first buffer's
head-room is below `HeaderSize` (`GeneralError::boundary`); and when the
state is not Open it neither raises nor transmits — the call returns the
silent-drop outcome with the controller (hence the send trace) unchanged. -/
theorem applicationRx_error_iff (c : Controller) (f : Frame) (now : Nat) :
    (((c.applicationRx f now).1 = .errEmpty ∨ (c.applicationRx f now).1 = .errBoundary)
      ↔ (f.buffers.length = 0 ∨ ∃ b rest, f.buffers = b :: rest ∧ b.headRoom < HeaderSize))
    ∧ (c.state ≠ .StOpen →
        ¬ ((c.applicationRx f now).1 = .errEmpty ∨ (c.applicationRx f now).1 = .errBoundary) →
        (c.applicationRx f now).1 = .dropped ∧ (c.applicationRx f now).2.1 = c) := by
  rcases f with ⟨bufs, hdr0⟩
  rcases bufs with _ | ⟨b, rest⟩
  · constructor
    · simp [Controller.applicationRx]
    · intro _ hne
      exact absurd (Or.inl (by simp [Controller.applicationRx])) hne
  · by_cases hhr : b.headRoom < HeaderSize
    · constructor
      · constructor
        · intro _
          exact Or.inr ⟨b, rest, rfl, hhr⟩
        · intro _
          exact Or.inr (by simp [Controller.applicationRx, hhr])
      · intro _ hne
        exact absurd (Or.inr (by simp [Controller.applicationRx, hhr])) hne
    · constructor
      · constructor
        · intro h
          by_cases h2 : c.state = .StOpen ∧ c.remMaxBuffers ≤ c.txListCount
          · simp [Controller.applicationRx, hhr, h2] at h
          · by_cases h3 : c.state ≠ .StOpen
            · simp [Controller.applicationRx, hhr, h2, h3] at h
            · simp [Controller.applicationRx, hhr, h2, h3] at h
        · rintro (h | ⟨b', rest', heq, hlt⟩)
          · simp at h
          · injection heq with h1 _
            subst h1
            exact absurd hlt hhr
      · intro h3 hne
        have h2 : ¬ (c.state = .StOpen ∧ c.remMaxBuffers ≤ c.txListCount) :=
          fun hx => h3 hx.1
        constructor <;> simp [Controller.applicationRx, hhr, h2, h3]

/-- C9 witness: a closed controller silently drops a well-formed frame,
leaving the controller (and so the send trace) untouched. -/
theorem applicationRx_error_iff_witness :
    (c9c.applicationRx f9 5).1 = .dropped ∧ (c9c.applicationRx f9 5).2.1 = c9c :=
  (applicationRx_error_iff c9c f9 5).2 (by decide) (by decide)

/-- C10: on the silent-drop path (state not Open, frame well-formed) the
caller's frame comes back mutated: the first buffer's head-room has been
reduced by `HeaderSize` and the header region now holds the header
`applicationRx` initialised with `txInit(false,false)` / `setAck(true)` —
the frame is not equal to the frame passed in. -/
theorem applicationRx_silent_drop_mutates (c : Controller) (b : Buffer)
    (rest : List Buffer) (hdr0 : Option TxHeader) (now : Nat)
    (hst : c.state ≠ .StOpen) (hhr : HeaderSize ≤ b.headRoom) :
    (c.applicationRx { buffers := b :: rest, hdr := hdr0 } now).1 = .dropped
    ∧ (c.applicationRx { buffers := b :: rest, hdr := hdr0 } now).2.2
        = { buffers := { b with headRoom := b.headRoom - HeaderSize } :: rest
            hdr := some appRxHead }
    ∧ (c.applicationRx { buffers := b :: rest, hdr := hdr0 } now).2.2
        ≠ { buffers := b :: rest, hdr := hdr0 } := by
  have h2 : ¬ (c.state = .StOpen ∧ c.remMaxBuffers ≤ c.txListCount) :=
    fun hx => hst hx.1
  have hhr' : ¬ b.headRoom < HeaderSize := by omega
  have hv : (c.applicationRx { buffers := b :: rest, hdr := hdr0 } now).2.2
      = { buffers := { b with headRoom := b.headRoom - HeaderSize } :: rest
          hdr := some appRxHead } := by
    simp [Controller.applicationRx, hhr', h2, hst]
  refine ⟨by simp [Controller.applicationRx, hhr', h2, hst], hv, ?_⟩
  rw [hv]
  intro heq
  have hlist : { b with headRoom := b.headRoom - HeaderSize } :: rest = b :: rest :=
    congrArg Frame.buffers heq
  injection hlist with h1 _
  have hr : b.headRoom - HeaderSize = b.headRoom := congrArg Buffer.headRoom h1
  have h12 : HeaderSize = 12 := rfl
  omega

/-- C10 witness: the closed controller's silent drop hands back `f9` with
its head-room already consumed and the header region written. -/
theorem applicationRx_silent_drop_mutates_witness :
    (c9c.applicationRx f9 5).1 = .dropped ∧ (c9c.applicationRx f9 5).2.2 ≠ f9 := by
  have h := applicationRx_silent_drop_mutates c9c
    { rawSize := 100, headRoom := 40, tailRoom := 0, payload := 40 } [] none 5
    (by decide) (by decide)
  exact ⟨h.1, h.2.2⟩

end Rssi
